import Mathlib

/-!
Verification of the layout and rendering engine of the claude-status
repository.  Strings are modelled as lists of characters; machine integers
(`usize`, `u8`) are modelled as `Nat` (all arithmetic in the embedded code is
bounded well below overflow, and `saturating_sub` is Nat truncated
subtraction).  Each definition is translated from the Rust source file noted
in its doc comment.
-/

namespace ClaudeStatus

/-- Strings are lists of characters. -/
abbrev Str := List Char

/-- Coerce a Lean string literal to the character-list representation. -/
def str (s : String) : Str := s.toList

/-- Modelled from the spec: the display width of one character as computed by
the external unicode-width crate (not part of this repository): control
characters occupy 0 cells, wide East-Asian characters occupy 2 cells, and
every other character occupies 1 cell. -/
def charWidth (c : Char) : Nat :=
  if c.toNat < 0x20 ∨ c.toNat = 0x7f then 0
  else if (0x1100 ≤ c.toNat ∧ c.toNat ≤ 0x115F) ∨
          (0x2E80 ≤ c.toNat ∧ c.toNat ≤ 0x303E) ∨
          (0x3041 ≤ c.toNat ∧ c.toNat ≤ 0x33FF) ∨
          (0x3400 ≤ c.toNat ∧ c.toNat ≤ 0x4DBF) ∨
          (0x4E00 ≤ c.toNat ∧ c.toNat ≤ 0x9FFF) ∨
          (0xAC00 ≤ c.toNat ∧ c.toNat ≤ 0xD7A3) ∨
          (0xF900 ≤ c.toNat ∧ c.toNat ≤ 0xFAFF) ∨
          (0xFF00 ≤ c.toNat ∧ c.toNat ≤ 0xFF60) then 2
  else 1

/-- Modelled from the spec: `UnicodeWidthStr::width`, the display width of a
string, i.e. the sum of the cell widths of its characters. -/
def uwidth (s : Str) : Nat := (s.map charWidth).sum

/-- The state machine of `strip_ansi` (src/layout/mod.rs lines 492-510): the
boolean is the `in_escape` flag. -/
def stripAnsiGo : Bool → Str → Str
  | _, [] => []
  | true, c :: rest =>
      if c.isAlpha then stripAnsiGo false rest else stripAnsiGo true rest
  | false, c :: rest =>
      if c = '\x1b' then stripAnsiGo true rest else c :: stripAnsiGo false rest

/-- `strip_ansi` from src/layout/mod.rs: strip ANSI escape sequences for
display-width calculation. -/
def stripAnsi (s : Str) : Str := stripAnsiGo false s

/-- `ColorLevel` from src/render/mod.rs. -/
inductive ColorLevel
  | none
  | basic16
  | color256
  | trueColor
  deriving DecidableEq

/-- `ColorSpec` from src/render/mod.rs.  The `u8` payloads are `Nat`s. -/
inductive ColorSpec
  | named : Str → ColorSpec
  | ansi256 : Nat → ColorSpec
  | rgb : Nat → Nat → Nat → ColorSpec
  deriving DecidableEq

/-- `Renderer` from src/render/mod.rs. -/
structure Renderer where
  color_level : ColorLevel
  deriving DecidableEq

/-- Decimal formatting of a natural number (Rust `format!` of an integer),
via a fuel-based structural recursion so that it reduces definitionally. -/
def natStrAux : Nat → Nat → Str
  | 0, _ => []
  | fuel + 1, n =>
      if n < 10 then [Nat.digitChar n]
      else natStrAux fuel (n / 10) ++ [Nat.digitChar (n % 10)]

/-- Decimal representation of a natural number as a character list. -/
def natStr (n : Nat) : Str := natStrAux (n + 1) n

/-- An SGR escape sequence: ESC `[` code `m`. -/
def sgr (code : Str) : Str := '\x1b' :: '[' :: (code ++ ['m'])

/-- Value of one hexadecimal digit, if valid. -/
def hexVal (c : Char) : Option Nat :=
  if '0' ≤ c ∧ c ≤ '9' then some (c.toNat - 48)
  else if 'a' ≤ c ∧ c ≤ 'f' then some (c.toNat - 87)
  else if 'A' ≤ c ∧ c ≤ 'F' then some (c.toNat - 55)
  else none

/-- Rust `u8::from_str_radix(s, 16).unwrap_or(0)` for a two-character slice:
the whole parse fails (yielding 0) if either digit is invalid. -/
def hexByte (h l : Char) : Nat :=
  match hexVal h, hexVal l with
  | some a, some b => 16 * a + b
  | _, _ => 0

/-- Rust `s.parse::<u8>()`: optional leading `+`, at least one decimal digit,
value at most 255, otherwise failure. -/
def parseU8 (s : Str) : Option Nat :=
  let t := match s with
    | '+' :: rest => rest
    | _ => s
  if t ≠ [] ∧ t.all Char.isDigit then
    let v := t.foldl (fun a c => a * 10 + (c.toNat - 48)) 0
    if v ≤ 255 then some v else none
  else none

/-- `Renderer::parse_color` from src/render/mod.rs lines 93-120. -/
def parse_color (name : Str) : ColorSpec :=
  if name = str "black" then .named (str "black")
  else if name = str "red" then .named (str "red")
  else if name = str "green" then .named (str "green")
  else if name = str "yellow" then .named (str "yellow")
  else if name = str "blue" then .named (str "blue")
  else if name = str "magenta" then .named (str "magenta")
  else if name = str "cyan" then .named (str "cyan")
  else if name = str "white" then .named (str "white")
  else if name = str "brightBlack" ∨ name = str "bright_black" then .named (str "brightBlack")
  else if name = str "brightRed" ∨ name = str "bright_red" then .named (str "brightRed")
  else if name = str "brightGreen" ∨ name = str "bright_green" then .named (str "brightGreen")
  else if name = str "brightYellow" ∨ name = str "bright_yellow" then .named (str "brightYellow")
  else if name = str "brightBlue" ∨ name = str "bright_blue" then .named (str "brightBlue")
  else if name = str "brightMagenta" ∨ name = str "bright_magenta" then .named (str "brightMagenta")
  else if name = str "brightCyan" ∨ name = str "bright_cyan" then .named (str "brightCyan")
  else if name = str "brightWhite" ∨ name = str "bright_white" then .named (str "brightWhite")
  else
    match name with
    | '#' :: a1 :: a2 :: b1 :: b2 :: c1 :: c2 :: [] =>
        .rgb (hexByte a1 a2) (hexByte b1 b2) (hexByte c1 c2)
    | _ =>
        match parseU8 name with
        | some n => .ansi256 n
        | Option.none => .named (str "white")

/-- `Renderer::rgb_to_256` from src/render/mod.rs lines 210-224: quantize an
RGB triple into the 6x6x6 cube or the grayscale ramp. -/
def rgb_to_256 (r g b : Nat) : Nat :=
  if r = g ∧ g = b then
    if r < 8 then 16
    else if r > 248 then 231
    else (r - 8) * 24 / 247 + 232
  else 16 + 36 * (r * 5 / 255) + 6 * (g * 5 / 255) + (b * 5 / 255)

/-- The 4-bit foreground code for a color name (the inner `match` of
`Renderer::named_fg`, src/render/mod.rs lines 124-142); unknown names fall
back to `37` (white). -/
def namedFgCode (n : Str) : Str :=
  (if n = str "black" then str "30"
        else if n = str "red" then str "31"
        else if n = str "green" then str "32"
        else if n = str "yellow" then str "33"
        else if n = str "blue" then str "34"
        else if n = str "magenta" then str "35"
        else if n = str "cyan" then str "36"
        else if n = str "white" then str "37"
        else if n = str "brightBlack" then str "90"
        else if n = str "brightRed" then str "91"
        else if n = str "brightGreen" then str "92"
        else if n = str "brightYellow" then str "93"
        else if n = str "brightBlue" then str "94"
        else if n = str "brightMagenta" then str "95"
        else if n = str "brightCyan" then str "96"
        else if n = str "brightWhite" then str "97"
        else str "37")

/-- `Renderer::named_fg` from src/render/mod.rs lines 122-149. -/
def named_fg (color : ColorSpec) : Str :=
  match color with
  | .named n => sgr (namedFgCode n)
  | .ansi256 n => sgr (str "38;5;" ++ natStr n)
  | .rgb r g b => sgr (str "38;5;" ++ natStr (rgb_to_256 r g b))

/-- The 4-bit background code for a color name (the inner `match` of
`Renderer::named_bg`, src/render/mod.rs lines 153-171); unknown names fall
back to `40` (black). -/
def namedBgCode (n : Str) : Str :=
  (if n = str "black" then str "40"
        else if n = str "red" then str "41"
        else if n = str "green" then str "42"
        else if n = str "yellow" then str "43"
        else if n = str "blue" then str "44"
        else if n = str "magenta" then str "45"
        else if n = str "cyan" then str "46"
        else if n = str "white" then str "47"
        else if n = str "brightBlack" ∨ n = str "bgBrightBlack" then str "100"
        else if n = str "brightRed" ∨ n = str "bgBrightRed" then str "101"
        else if n = str "brightGreen" ∨ n = str "bgBrightGreen" then str "102"
        else if n = str "brightYellow" ∨ n = str "bgBrightYellow" then str "103"
        else if n = str "brightBlue" ∨ n = str "bgBrightBlue" then str "104"
        else if n = str "brightMagenta" ∨ n = str "bgBrightMagenta" then str "105"
        else if n = str "brightCyan" ∨ n = str "bgBrightCyan" then str "106"
        else if n = str "brightWhite" ∨ n = str "bgBrightWhite" then str "107"
        else str "40")

/-- `Renderer::named_bg` from src/render/mod.rs lines 151-178. -/
def named_bg (color : ColorSpec) : Str :=
  match color with
  | .named n => sgr (namedBgCode n)
  | .ansi256 n => sgr (str "48;5;" ++ natStr n)
  | .rgb r g b => sgr (str "48;5;" ++ natStr (rgb_to_256 r g b))

/-- `Renderer::ansi256_fg` from src/render/mod.rs lines 180-186. -/
def ansi256_fg (color : ColorSpec) : Str :=
  match color with
  | .ansi256 n => sgr (str "38;5;" ++ natStr n)
  | .rgb r g b => sgr (str "38;5;" ++ natStr (rgb_to_256 r g b))
  | other => named_fg other

/-- `Renderer::ansi256_bg` from src/render/mod.rs lines 188-194. -/
def ansi256_bg (color : ColorSpec) : Str :=
  match color with
  | .ansi256 n => sgr (str "48;5;" ++ natStr n)
  | .rgb r g b => sgr (str "48;5;" ++ natStr (rgb_to_256 r g b))
  | other => named_bg other

/-- `Renderer::truecolor_fg` from src/render/mod.rs lines 196-201. -/
def truecolor_fg (color : ColorSpec) : Str :=
  match color with
  | .rgb r g b =>
      sgr (str "38;2;" ++ natStr r ++ str ";" ++ natStr g ++ str ";" ++ natStr b)
  | other => ansi256_fg other

/-- `Renderer::truecolor_bg` from src/render/mod.rs lines 203-208. -/
def truecolor_bg (color : ColorSpec) : Str :=
  match color with
  | .rgb r g b =>
      sgr (str "48;2;" ++ natStr r ++ str ";" ++ natStr g ++ str ";" ++ natStr b)
  | other => ansi256_bg other

/-- `Renderer::fg` from src/render/mod.rs lines 51-58. -/
def fg (r : Renderer) (color : ColorSpec) : Str :=
  match r.color_level with
  | .none => []
  | .basic16 => named_fg color
  | .color256 => ansi256_fg color
  | .trueColor => truecolor_fg color

/-- `Renderer::bg` from src/render/mod.rs lines 60-67. -/
def bg (r : Renderer) (color : ColorSpec) : Str :=
  match r.color_level with
  | .none => []
  | .basic16 => named_bg color
  | .color256 => ansi256_bg color
  | .trueColor => truecolor_bg color

/-- `Renderer::bold` from src/render/mod.rs lines 69-75. -/
def bold (r : Renderer) : Str :=
  if r.color_level = ColorLevel.none then [] else sgr (str "1")

/-- `Renderer::reset` from src/render/mod.rs lines 77-83. -/
def reset (r : Renderer) : Str :=
  if r.color_level = ColorLevel.none then [] else sgr (str "0")

/-- `Renderer::osc8_link` from src/render/mod.rs lines 85-91. -/
def osc8_link (r : Renderer) (url text : Str) : Str :=
  if r.color_level = ColorLevel.none then text
  else str "\x1b]8;;" ++ url ++ str "\x07" ++ text ++ str "\x1b]8;;" ++ str "\x07"

/-- The process environment as consulted by color detection: the values (if
present) of `NO_COLOR`, `COLORTERM` and `TERM`. -/
structure Env where
  no_color : Option Str
  colorterm : Option Str
  term : Option Str
  deriving DecidableEq

/-- Rust `str::contains` on character lists: does `hay` contain `needle` as a
contiguous substring? -/
def isContained (needle : Str) : Str → Bool
  | [] => needle == []
  | c :: rest => needle.isPrefixOf (c :: rest) || isContained needle rest

/-- `Renderer::detect_color_level` from src/render/mod.rs lines 34-49. -/
def detect_color_level (env : Env) : ColorLevel :=
  if env.no_color.isSome then ColorLevel.none
  else if (match env.colorterm with
    | some ct => ct == str "truecolor" || ct == str "24bit"
    | Option.none => false) = true then ColorLevel.trueColor
  else if (match env.term with
    | some t => isContained (str "256color") t
    | Option.none => false) = true then ColorLevel.color256
  else ColorLevel.basic16

/-- `Renderer::detect` from src/render/mod.rs lines 23-32. -/
def detect (override_level : Str) (env : Env) : Renderer :=
  { color_level :=
      if override_level = str "none" then ColorLevel.none
      else if override_level = str "16" then ColorLevel.basic16
      else if override_level = str "256" then ColorLevel.color256
      else if override_level = str "truecolor" then ColorLevel.trueColor
      else detect_color_level env }

/-- `WidgetOutput` from src/widgets/traits.rs, together with the dynamic
`color_hint` field used by src/layout/mod.rs and built by
src/widgets/flex_separator.rs. -/
structure WidgetOutput where
  text : Str
  display_width : Nat
  priority : Nat
  visible : Bool
  color_hint : Option Str
  deriving DecidableEq

/-- `WidgetConfig` from src/widgets/traits.rs; the `HashMap` metadata is an
association list. -/
structure WidgetConfig where
  widget_type : Str
  id : Str
  color : Option Str
  background_color : Option Str
  bold : Option Bool
  raw_value : Bool
  padding : Option Str
  merge_next : Bool
  metadata : List (Str × Str)
  deriving DecidableEq

/-- Modelled from the spec: `crate::config::LineWidgetConfig` (the config
module is not among the available sources).  A widget slot carries a
widget-type identifier, optional explicit colors, an optional bold override,
an optional literal padding string, and a merge-with-next flag; exactly the
fields read by src/layout/mod.rs. -/
structure LineWidgetConfig where
  widget_type : Str
  color : Option Str
  background_color : Option Str
  bold : Option Bool
  padding : Option Str
  merge_next : Bool
  deriving DecidableEq

/-- Modelled from the spec: the powerline sub-configuration of
`crate::config::Config` (enabled flag, separator glyph, optional caps,
auto-align flag). -/
structure PowerlineConfig where
  enabled : Bool
  separator : Str
  start_cap : Option Str
  end_cap : Option Str
  auto_align : Bool
  deriving DecidableEq

/-- Modelled from the spec: the global settings of `crate::config::Config`
read by src/layout/mod.rs (theme name, default separator glyph, default
padding string, global bold default, flex width mode, powerline settings). -/
structure Config where
  theme : Str
  default_separator : Str
  default_padding : Str
  global_bold : Bool
  flex_mode : Str
  powerline : PowerlineConfig
  deriving DecidableEq

/-- Lookup in an association-list model of a `HashMap<String, String>`. -/
def lookupStr (m : List (Str × Str)) (k : Str) : Option Str :=
  (m.find? (fun p => p.1 == k)).map (fun p => p.2)

/-- `Theme` from src/themes/mod.rs; the color map is an association list. -/
structure Theme where
  name : Str
  colors : List (Str × Str)
  deriving DecidableEq

/-- `Theme::role_for_widget` from src/themes/mod.rs lines 46-59. -/
def Theme.role_for_widget (t : Theme) (widget_type : Str) : Option Str :=
  let role : Option Str :=
    if widget_type = str "model" then some (str "model")
    else if widget_type = str "context-percentage" ∨ widget_type = str "context-length" then
      some (str "context_ok")
    else if widget_type = str "git-branch" then some (str "git_branch")
    else if widget_type = str "git-status" then some (str "git_clean")
    else if widget_type = str "git-worktree" then some (str "git_branch")
    else if widget_type = str "session-cost" ∨ widget_type = str "block-timer" then
      some (str "cost")
    else if widget_type = str "session-duration" ∨ widget_type = str "api-duration" then
      some (str "duration")
    else if widget_type = str "separator" then some (str "separator_fg")
    else Option.none
  match role with
  | some rl => lookupStr t.colors rl
  | Option.none => Option.none

/-- `FlexSeparatorWidget::render` from src/widgets/flex_separator.rs: the
fill character comes from the `char` metadata entry when present and
non-empty, else a single space; the output is a marker with display width 0. -/
def FlexSeparatorWidget.render (config : WidgetConfig) : WidgetOutput :=
  let fill_char : Str :=
    match lookupStr config.metadata (str "char") with
    | some c => if c = [] then str " " else c
    | Option.none => str " "
  { text := fill_char
    display_width := 0
    priority := 100
    visible := true
    color_hint := Option.none }

/-- `LayoutEngine::resolve_fg_color` from src/layout/mod.rs lines 82-100:
explicit config color, else widget color hint, else theme role, else none. -/
def resolve_fg_color (theme : Theme) (wc : LineWidgetConfig) (output : WidgetOutput) :
    Option Str :=
  match wc.color with
  | some color => some color
  | Option.none =>
      match output.color_hint with
      | some hint => some hint
      | Option.none => theme.role_for_widget wc.widget_type

/-- `LayoutEngine::apply_style` from src/layout/mod.rs lines 422-446:
optional background escape, optional resolved foreground escape, optional
bold, the text, and a final reset. -/
def apply_style (cfg : Config) (r : Renderer) (theme : Theme) (text : Str)
    (wc : LineWidgetConfig) (output : WidgetOutput) : Str :=
  (match wc.background_color with
    | some b => bg r (parse_color b)
    | Option.none => [])
  ++ (match resolve_fg_color theme wc output with
    | some f => fg r (parse_color f)
    | Option.none => [])
  ++ (if wc.bold.getD cfg.global_bold then bold r else [])
  ++ text ++ reset r

/-- Rust `str::repeat`: the string repeated `n` times. -/
def repeatStr (s : Str) (n : Nat) : Str := (List.replicate n s).flatten

/-- The loop of `LayoutEngine::assemble_line` (src/layout/mod.rs lines
119-142): walks the visible widgets carrying whether a separator is due
before the next widget (`i > 0 && !widgets[i-1].merge_next`, the only fact
the loop reads off the previous widget), the accumulated parts and the
running display-width total; a `break` returns the parts accumulated so
far. -/
def assembleLineGo (cfg : Config) (r : Renderer) (theme : Theme) (maxW : Nat) :
    List (WidgetOutput × LineWidgetConfig) → Bool → Nat → List Str × Nat
  | [], _, total => ([], total)
  | (o, wc) :: rest, needSep, total =>
      if needSep = true ∧ total + uwidth cfg.default_separator + o.display_width > maxW then
        ([], total)
      else
        let parts0 : List Str := if needSep then [cfg.default_separator] else []
        let t1 := if needSep then total + uwidth cfg.default_separator else total
        if t1 + o.display_width > maxW then
          (parts0, t1)
        else
          let padding := wc.padding.getD cfg.default_padding
          let part := padding ++ apply_style cfg r theme o.text wc o ++ padding
          let t2 := t1 + o.display_width + uwidth padding * 2
          let res := assembleLineGo cfg r theme maxW rest (!wc.merge_next) t2
          (parts0 ++ part :: res.1, res.2)

/-- First pass of `LayoutEngine::assemble_line_with_flex` (src/layout/mod.rs
lines 157-170): the fixed display width of all non-flex widgets, counting a
separator before a widget unless it is first, follows a merge-next widget, or
follows the flex slot.  The boolean carries whether a separator is due before
the next widget (`i > 0 && !widgets[i-1].merge_next && widgets[i-1] is not
the flex slot`): `false` after a flex slot, else `!merge_next` (a non-flex
previous widget is known not to be the flex slot). -/
def flexFixedGo (cfg : Config) :
    List (WidgetOutput × LineWidgetConfig) → Bool → Nat
  | [], _ => 0
  | (o, wc) :: rest, needSep =>
      if wc.widget_type = str "flex-separator" then
        flexFixedGo cfg rest false
      else
        (if needSep then uwidth cfg.default_separator else 0)
          + o.display_width + uwidth (wc.padding.getD cfg.default_padding) * 2
          + flexFixedGo cfg rest (!wc.merge_next)

/-- Second pass of `LayoutEngine::assemble_line_with_flex` (src/layout/mod.rs
lines 175-196): build the parts, replacing each flex slot by its fill
character repeated `flexW` times, with no width check anywhere; the boolean
is the separator-due flag as in `flexFixedGo`. -/
def flexPartsGo (cfg : Config) (r : Renderer) (theme : Theme) (flexW : Nat) :
    List (WidgetOutput × LineWidgetConfig) → Bool → List Str
  | [], _ => []
  | (o, wc) :: rest, needSep =>
      if wc.widget_type = str "flex-separator" then
        apply_style cfg r theme (repeatStr o.text flexW) wc o
          :: flexPartsGo cfg r theme flexW rest false
      else
        let padding := wc.padding.getD cfg.default_padding
        let part := padding ++ apply_style cfg r theme o.text wc o ++ padding
        (if needSep then [cfg.default_separator] else [])
          ++ part :: flexPartsGo cfg r theme flexW rest (!wc.merge_next)

/-- `LayoutEngine::assemble_line_with_flex` from src/layout/mod.rs lines
148-200: `flex_width = max_width.saturating_sub(fixed_width)`, then the
joined parts followed by a reset. -/
def assemble_line_with_flex (cfg : Config) (r : Renderer) (theme : Theme)
    (widgets : List (WidgetOutput × LineWidgetConfig)) (maxW : Nat) : Str :=
  let fixed := flexFixedGo cfg widgets false
  let flexW := maxW - fixed
  (flexPartsGo cfg r theme flexW widgets false).flatten ++ reset r

/-- `LayoutEngine::assemble_line` from src/layout/mod.rs lines 102-146:
dispatch to the flex variant when a flex-separator slot is present, else run
the width-budgeted loop and join the parts with a final reset. -/
def assemble_line (cfg : Config) (r : Renderer) (theme : Theme)
    (widgets : List (WidgetOutput × LineWidgetConfig)) (maxW : Nat) : Str :=
  if widgets.any (fun p => p.2.widget_type == str "flex-separator") then
    assemble_line_with_flex cfg r theme widgets maxW
  else
    (assembleLineGo cfg r theme maxW widgets false 0).1.flatten ++ reset r

/-- The auto-align post-processing step of `LayoutEngine::render`
(src/layout/mod.rs lines 61-75): when powerline mode and auto-align are both
enabled and more than one output line exists, right-pad every line whose
ANSI-stripped display width is below the maximum with spaces. -/
def autoAlignLines (cfg : Config) (output_lines : List Str) : List Str :=
  if cfg.powerline.enabled = true ∧ cfg.powerline.auto_align = true ∧
      output_lines.length > 1 then
    let maxW := (output_lines.map (fun l => uwidth (stripAnsi l))).foldl max 0
    output_lines.map (fun l =>
      let cur := uwidth (stripAnsi l)
      if cur < maxW then l ++ List.replicate (maxW - cur) ' ' else l)
  else output_lines

/-- Claim-side companion of `assembleLineGo`: render every widget with its
due separators and padding and accumulate the sum of the emitted display
widths, with no width limit.  Used to state that the budgeted assembler
emits exactly a prefix of the widget list. -/
def renderAllGo (cfg : Config) (r : Renderer) (theme : Theme) :
    List (WidgetOutput × LineWidgetConfig) → Bool → Nat → List Str × Nat
  | [], _, total => ([], total)
  | (o, wc) :: rest, needSep, total =>
      let parts0 : List Str := if needSep then [cfg.default_separator] else []
      let t1 := if needSep then total + uwidth cfg.default_separator else total
      let padding := wc.padding.getD cfg.default_padding
      let part := padding ++ apply_style cfg r theme o.text wc o ++ padding
      let res := renderAllGo cfg r theme rest (!wc.merge_next)
        (t1 + o.display_width + uwidth padding * 2)
      (parts0 ++ part :: res.1, res.2)

/-! ### Concrete instances used by witnesses and counterexamples -/

/-- A theme whose role mapping sends the `model` widget type to blue. -/
def themeBlue : Theme := { name := str "custom", colors := [(str "model", str "blue")] }

/-- A widget slot for the `model` widget with explicit color red. -/
def wcExplicitRed : LineWidgetConfig :=
  { widget_type := str "model", color := some (str "red")
    background_color := Option.none, bold := Option.none
    padding := Option.none, merge_next := false }

/-- A widget slot for the `model` widget with no explicit color. -/
def wcNoColor : LineWidgetConfig :=
  { widget_type := str "model", color := Option.none
    background_color := Option.none, bold := Option.none
    padding := Option.none, merge_next := false }

/-- A widget output carrying the dynamic color hint green. -/
def outHintGreen : WidgetOutput :=
  { text := str "x", display_width := 1, priority := 0, visible := true
    color_hint := some (str "green") }

/-- A widget output with no dynamic color hint. -/
def outNoHint : WidgetOutput :=
  { text := str "x", display_width := 1, priority := 0, visible := true
    color_hint := Option.none }

/-- The sixteen 4-bit foreground escape sequences (codes 30-37 and 90-97). -/
def basic16FgSeqs : List Str :=
  [sgr (str "30"), sgr (str "31"), sgr (str "32"), sgr (str "33"),
   sgr (str "34"), sgr (str "35"), sgr (str "36"), sgr (str "37"),
   sgr (str "90"), sgr (str "91"), sgr (str "92"), sgr (str "93"),
   sgr (str "94"), sgr (str "95"), sgr (str "96"), sgr (str "97")]

/-- The sixteen 4-bit background escape sequences (codes 40-47 and 100-107). -/
def basic16BgSeqs : List Str :=
  [sgr (str "40"), sgr (str "41"), sgr (str "42"), sgr (str "43"),
   sgr (str "44"), sgr (str "45"), sgr (str "46"), sgr (str "47"),
   sgr (str "100"), sgr (str "101"), sgr (str "102"), sgr (str "103"),
   sgr (str "104"), sgr (str "105"), sgr (str "106"), sgr (str "107")]

/-- An environment where `COLORTERM` strictly contains `truecolor` without
being equal to it, and `NO_COLOR`/`TERM` are unset. -/
def envColortermSuperstring : Env :=
  { no_color := Option.none, colorterm := some (str "truecolor ok")
    term := Option.none }

/-- Peeling lemma for if-chains: an `ite` whose branches produce list members
produces a list member. -/
theorem sgr_ite_mem {S : List Str} (c : Prop) [Decidable c] (a b : Str)
    (ha : sgr a ∈ S) (hb : sgr b ∈ S) : sgr (if c then a else b) ∈ S := by
  split <;> assumption

/-! ### C3, C4, C5, C6, C7, C9 -/

/-- C3: foreground color resolution follows the priority chain explicit
config color, then widget dynamic color hint, then theme role mapping: with
explicit red the result is red; with no explicit color and hint green the
result is green; with neither, a theme role mapping to blue gives blue. -/
theorem C3_fg_priority_chain (theme : Theme) (wc : LineWidgetConfig) (o : WidgetOutput) :
    (wc.color = some (str "red") → resolve_fg_color theme wc o = some (str "red")) ∧
    (wc.color = Option.none → o.color_hint = some (str "green") →
      resolve_fg_color theme wc o = some (str "green")) ∧
    (wc.color = Option.none → o.color_hint = Option.none →
      theme.role_for_widget wc.widget_type = some (str "blue") →
      resolve_fg_color theme wc o = some (str "blue")) := by
  refine ⟨fun h => ?_, fun h h2 => ?_, fun h h2 h3 => ?_⟩
  · simp [resolve_fg_color, h]
  · simp [resolve_fg_color, h, h2]
  · simp [resolve_fg_color, h, h2, h3]

/-- Witness for C3 at concrete inputs: explicit red beats hint green beats
the theme's blue role mapping. -/
theorem C3_fg_priority_chain_witness :
    resolve_fg_color themeBlue wcExplicitRed outHintGreen = some (str "red") ∧
    resolve_fg_color themeBlue wcNoColor outHintGreen = some (str "green") ∧
    resolve_fg_color themeBlue wcNoColor outNoHint = some (str "blue") :=
  ⟨(C3_fg_priority_chain themeBlue wcExplicitRed outHintGreen).1 rfl,
   (C3_fg_priority_chain themeBlue wcNoColor outHintGreen).2.1 rfl rfl,
   (C3_fg_priority_chain themeBlue wcNoColor outNoHint).2.2 rfl rfl (by decide)⟩

/-- C4: at color level `None`, `fg`, `bg`, `bold` and `reset` all return the
empty string for every color spec. -/
theorem C4_none_level_zero_bytes (c : ColorSpec) :
    fg { color_level := ColorLevel.none } c = [] ∧
    bg { color_level := ColorLevel.none } c = [] ∧
    bold { color_level := ColorLevel.none } = [] ∧
    reset { color_level := ColorLevel.none } = [] :=
  ⟨rfl, rfl, rfl, rfl⟩

/-- C5 fails as stated: at `Basic16` an 8-bit palette index is emitted as a
256-color escape sequence `ESC[38;5;100m`, which is none of the sixteen
4-bit codes and is not a fixed default code. -/
theorem C5_counterexample_ansi256_passthrough :
    fg { color_level := ColorLevel.basic16 } (ColorSpec.ansi256 100) =
      sgr (str "38;5;100") ∧
    basic16FgSeqs.contains
      (fg { color_level := ColorLevel.basic16 } (ColorSpec.ansi256 100)) = false := by
  decide

/-- C5 amended: at `Basic16`, named color specs are emitted as one of the
sixteen 4-bit codes (unknown names falling back to the default white/black
code), while 8-bit palette indices and 24-bit RGB triples are emitted as
256-color escape sequences (RGB quantized through `rgb_to_256`) rather than
falling back to a fixed default. -/
theorem C5_amended_basic16 (n : Str) (k rc gc bc : Nat) :
    fg { color_level := ColorLevel.basic16 } (ColorSpec.named n) ∈ basic16FgSeqs ∧
    bg { color_level := ColorLevel.basic16 } (ColorSpec.named n) ∈ basic16BgSeqs ∧
    fg { color_level := ColorLevel.basic16 } (ColorSpec.ansi256 k) =
      sgr (str "38;5;" ++ natStr k) ∧
    fg { color_level := ColorLevel.basic16 } (ColorSpec.rgb rc gc bc) =
      sgr (str "38;5;" ++ natStr (rgb_to_256 rc gc bc)) ∧
    bg { color_level := ColorLevel.basic16 } (ColorSpec.ansi256 k) =
      sgr (str "48;5;" ++ natStr k) ∧
    bg { color_level := ColorLevel.basic16 } (ColorSpec.rgb rc gc bc) =
      sgr (str "48;5;" ++ natStr (rgb_to_256 rc gc bc)) := by
  refine ⟨?_, ?_, rfl, rfl, rfl, rfl⟩
  · show sgr (namedFgCode n) ∈ basic16FgSeqs
    rw [namedFgCode.eq_def]
    repeat (first | apply sgr_ite_mem _ _ _ (by decide) | decide)
  · show sgr (namedBgCode n) ∈ basic16BgSeqs
    rw [namedBgCode.eq_def]
    repeat (first | apply sgr_ite_mem _ _ _ (by decide) | decide)

/-- C6 fails as stated: with `NO_COLOR` unset and `COLORTERM` set to a value
that contains `truecolor` without being exactly equal to it, detection yields
`Basic16`, not `TrueColor`: the code compares `COLORTERM` by equality, not
containment. -/
theorem C6_counterexample_colorterm_equality :
    isContained (str "truecolor") (str "truecolor ok") = true ∧
    detect_color_level envColortermSuperstring = ColorLevel.basic16 ∧
    detect_color_level envColortermSuperstring ≠ ColorLevel.trueColor := by
  decide

/-- C6 amended: detection yields `None` when `NO_COLOR` is present; else
`TrueColor` when `COLORTERM` equals exactly `truecolor` or `24bit` (not
merely contains it); else `Color256` when `TERM` contains `256color`; else
`Basic16`; and an explicit override of `none`/`16`/`256`/`truecolor` always
takes precedence over detection, any other override falling back to it. -/
theorem C6_amended_detection (env : Env) (ov : Str) :
    (env.no_color.isSome = true → detect_color_level env = ColorLevel.none) ∧
    (env.no_color = Option.none →
      (env.colorterm = some (str "truecolor") ∨ env.colorterm = some (str "24bit")) →
      detect_color_level env = ColorLevel.trueColor) ∧
    (env.no_color = Option.none →
      (∀ ct, env.colorterm = some ct → ct ≠ str "truecolor" ∧ ct ≠ str "24bit") →
      (∀ t, env.term = some t → isContained (str "256color") t = true) →
      env.term.isSome = true →
      detect_color_level env = ColorLevel.color256) ∧
    (env.no_color = Option.none →
      (∀ ct, env.colorterm = some ct → ct ≠ str "truecolor" ∧ ct ≠ str "24bit") →
      (∀ t, env.term = some t → isContained (str "256color") t = false) →
      detect_color_level env = ColorLevel.basic16) ∧
    (detect (str "none") env).color_level = ColorLevel.none ∧
    (detect (str "16") env).color_level = ColorLevel.basic16 ∧
    (detect (str "256") env).color_level = ColorLevel.color256 ∧
    (detect (str "truecolor") env).color_level = ColorLevel.trueColor ∧
    (ov ≠ str "none" → ov ≠ str "16" → ov ≠ str "256" → ov ≠ str "truecolor" →
      (detect ov env).color_level = detect_color_level env) := by
  obtain ⟨nc, ct, tm⟩ := env
  refine ⟨fun h => ?_, fun h h2 => ?_, fun h h2 h3 h4 => ?_, fun h h2 h3 => ?_,
    ?_, ?_, ?_, ?_, fun h1 h2 h3 h4 => ?_⟩
  · simp_all [detect_color_level]
  · rcases h2 with h2 | h2 <;> simp_all [detect_color_level]
  · subst h
    cases tm with
    | none => simp at h4
    | some t =>
        have h3t := h3 t rfl
        cases ct with
        | none => simp_all [detect_color_level]
        | some c =>
            have := h2 c rfl
            simp_all [detect_color_level]
  · subst h
    cases ct with
    | none =>
        cases tm with
        | none => simp [detect_color_level]
        | some t => have := h3 t rfl; simp_all [detect_color_level]
    | some c =>
        have hc := h2 c rfl
        cases tm with
        | none => simp_all [detect_color_level]
        | some t => have := h3 t rfl; simp_all [detect_color_level]
  · rfl
  · rfl
  · rfl
  · rfl
  · simp [detect, h1, h2, h3, h4]

/-- Witness for C6 at concrete inputs: `COLORTERM=24bit` detects as
`TrueColor`, and an unrecognized override falls back to detection. -/
theorem C6_amended_detection_witness :
    detect_color_level
      { no_color := Option.none, colorterm := some (str "24bit"),
        term := some (str "xterm-256color") } = ColorLevel.trueColor ∧
    (detect (str "fancy")
      { no_color := Option.none, colorterm := some (str "24bit"),
        term := some (str "xterm-256color") }).color_level =
      detect_color_level
        { no_color := Option.none, colorterm := some (str "24bit"),
          term := some (str "xterm-256color") } :=
  ⟨(C6_amended_detection
      { no_color := Option.none, colorterm := some (str "24bit"),
        term := some (str "xterm-256color") } (str "fancy")).2.1 rfl (Or.inr rfl),
   (C6_amended_detection
      { no_color := Option.none, colorterm := some (str "24bit"),
        term := some (str "xterm-256color") } (str "fancy")).2.2.2.2.2.2.2.2
      (by decide) (by decide) (by decide) (by decide)⟩

/-- C7: the code is wrong on OSC sequences.  `strip_ansi` leaves escape mode
only at an ASCII-alphabetic character, so the BEL terminator of an OSC 8
hyperlink does not end the escape and the first alphabetic visible character
is swallowed: stripping the link `ESC]8;;BEL` `ab` `ESC]8;;BEL` yields `b`
of width 1, while the visible text `ab` has width 2. -/
theorem C7_code_bug_osc_swallows_text :
    stripAnsi (osc8_link { color_level := ColorLevel.trueColor } [] (str "ab")) =
      str "b" ∧
    uwidth (stripAnsi
      (osc8_link { color_level := ColorLevel.trueColor } [] (str "ab"))) = 1 ∧
    uwidth (str "ab") = 2 := by
  decide

/-- C9: parsing the literal `#1a2b3c` yields the RGB triple (26, 43, 60) and
the true-color foreground escape emits exactly that triple. -/
theorem C9_hex_roundtrip :
    parse_color (str "#1a2b3c") = ColorSpec.rgb 26 43 60 ∧
    fg { color_level := ColorLevel.trueColor } (parse_color (str "#1a2b3c")) =
      str "\x1b[38;2;26;43;60m" := by
  decide

/-! ### C8: powerline auto-align -/

/-- The seed of a `foldl max` is a lower bound of the result. -/
theorem foldl_max_init_le (xs : List Nat) (a : Nat) : a ≤ xs.foldl max a := by
  induction xs generalizing a with
  | nil => exact Nat.le_refl a
  | cons x xs ih => exact Nat.le_trans (Nat.le_max_left a x) (ih (max a x))

/-- Every member of a list is bounded by its `foldl max`. -/
theorem mem_le_foldl_max (xs : List Nat) (x : Nat) (hx : x ∈ xs) :
    ∀ a, x ≤ xs.foldl max a := by
  induction xs with
  | nil => cases hx
  | cons y ys ih =>
      intro a
      rcases List.mem_cons.mp hx with h | h
      · subst h
        exact Nat.le_trans (Nat.le_max_right a x) (foldl_max_init_le ys (max a x))
      · exact ih h (max a y)

/-- A config with powerline mode and auto-align both enabled. -/
def cfgPowerAlign : Config :=
  { theme := str "default", default_separator := str " | "
    default_padding := str " ", global_bold := false
    flex_mode := str "full-minus-40"
    powerline :=
      { enabled := true, separator := str "", start_cap := Option.none
        end_cap := Option.none, auto_align := true } }

/-- C8: when powerline mode and auto-align are both enabled and more than one
output line exists, every line is right-padded with exactly
(maximum ANSI-stripped display width − its own stripped width) plain space
characters and nothing else — no styling is attached to the padding, and a
line already at the maximum receives zero spaces. -/
theorem C8_auto_align_pads_with_plain_spaces (cfg : Config) (lines : List Str)
    (hpl : cfg.powerline.enabled = true) (haa : cfg.powerline.auto_align = true)
    (hlen : lines.length > 1) :
    autoAlignLines cfg lines = lines.map (fun l =>
      l ++ List.replicate
        ((lines.map (fun l2 => uwidth (stripAnsi l2))).foldl max 0
          - uwidth (stripAnsi l)) ' ') := by
  unfold autoAlignLines
  rw [if_pos ⟨hpl, haa, hlen⟩]
  apply List.map_congr_left
  intro l hl
  by_cases h : uwidth (stripAnsi l) <
      (lines.map (fun l2 => uwidth (stripAnsi l2))).foldl max 0
  · simp only [if_pos h]
  · simp only [if_neg h]
    have hle : uwidth (stripAnsi l) ≤
        (lines.map (fun l2 => uwidth (stripAnsi l2))).foldl max 0 :=
      mem_le_foldl_max _ _
        (List.mem_map_of_mem (fun l2 => uwidth (stripAnsi l2)) hl) 0
    have heq : (lines.map (fun l2 => uwidth (stripAnsi l2))).foldl max 0
        - uwidth (stripAnsi l) = 0 := by omega
    rw [heq]
    simp

/-- Witness for C8: two lines of stripped widths 42 and 30; the longer line
is unchanged and the shorter receives exactly 12 plain spaces. -/
theorem C8_auto_align_pads_with_plain_spaces_witness :
    autoAlignLines cfgPowerAlign
        [List.replicate 42 'a', List.replicate 30 'b'] =
      [List.replicate 42 'a',
       List.replicate 30 'b' ++ List.replicate 12 ' '] :=
  (C8_auto_align_pads_with_plain_spaces cfgPowerAlign
      [List.replicate 42 'a', List.replicate 30 'b'] rfl rfl
      (by decide)).trans (by decide)

/-! ### C1: standard assembler width budget and trailing-order drops -/

/-- A renderer at color level `None` (pure text output). -/
def rNone : Renderer := { color_level := ColorLevel.none }

/-- A theme with an empty color map. -/
def themeEmpty : Theme := { name := str "empty", colors := [] }

/-- A standard (non-powerline) config with the one-space default padding. -/
def cfgPad1 : Config :=
  { theme := str "default", default_separator := str " | "
    default_padding := str " ", global_bold := false
    flex_mode := str "full"
    powerline :=
      { enabled := false, separator := str "", start_cap := Option.none
        end_cap := Option.none, auto_align := false } }

/-- A one-column widget output with text `x` and no color hint. -/
def outX : WidgetOutput :=
  { text := str "x", display_width := 1, priority := 0, visible := true
    color_hint := Option.none }

/-- A two-column widget output with text `yz` and no color hint. -/
def outYZ : WidgetOutput :=
  { text := str "yz", display_width := 2, priority := 0, visible := true
    color_hint := Option.none }

/-- A plain widget slot: no colors, no bold, default padding, no merge. -/
def wcPlain : LineWidgetConfig :=
  { widget_type := str "custom-text", color := Option.none
    background_color := Option.none, bold := Option.none
    padding := Option.none, merge_next := false }

/-- C1 fails as stated: with `max_width = 1` and a single visible widget of
display width 1 with the default one-space padding, the assembler emits the
widget because the budget check ignores the widget's own padding, and the
emitted separators+text+padding sum to display width 3 > 1 (the running
total kept by the loop is also 3). -/
theorem C1_counterexample_padding_overflow :
    assemble_line cfgPad1 rNone themeEmpty [(outX, wcPlain)] 1 = str " x " ∧
    uwidth (stripAnsi (assemble_line cfgPad1 rNone themeEmpty [(outX, wcPlain)] 1)) = 3 ∧
    (assembleLineGo cfgPad1 rNone themeEmpty 1 [(outX, wcPlain)] false 0).2 = 3 ∧
    1 < 3 := by
  decide

/-- The budgeted loop emits exactly some prefix of the widget list: whatever
it produces agrees with the unlimited renderer on the first `k` widgets, so
if a widget is dropped then every later widget is dropped too. -/
theorem assembleLineGo_prefix (cfg : Config) (r : Renderer) (theme : Theme)
    (maxW : Nat) (ws : List (WidgetOutput × LineWidgetConfig)) :
    ∀ (needSep : Bool) (total : Nat),
    ∃ k, assembleLineGo cfg r theme maxW ws needSep total =
      renderAllGo cfg r theme (ws.take k) needSep total := by
  induction ws with
  | nil => intro needSep total; exact ⟨0, rfl⟩
  | cons hd rest ih =>
      intro needSep total
      obtain ⟨o, wc⟩ := hd
      simp only [assembleLineGo]
      cases needSep with
      | true =>
          by_cases h1 : total + uwidth cfg.default_separator + o.display_width > maxW
          · rw [if_pos ⟨rfl, h1⟩]
            exact ⟨0, rfl⟩
          · rw [if_neg (by simpa using h1)]
            simp only [eq_self_iff_true, if_true]
            rw [if_neg (by omega)]
            obtain ⟨k, hk⟩ := ih (!wc.merge_next)
              (total + uwidth cfg.default_separator + o.display_width
                + uwidth (wc.padding.getD cfg.default_padding) * 2)
            refine ⟨k + 1, ?_⟩
            simp only [List.take_succ_cons, renderAllGo, eq_self_iff_true, if_true]
            rw [hk]
      | false =>
          rw [if_neg (by simp)]
          simp only [Bool.false_eq_true, if_false]
          by_cases h2 : total + o.display_width > maxW
          · rw [if_pos h2]
            exact ⟨0, rfl⟩
          · rw [if_neg h2]
            obtain ⟨k, hk⟩ := ih (!wc.merge_next)
              (total + o.display_width
                + uwidth (wc.padding.getD cfg.default_padding) * 2)
            refine ⟨k + 1, ?_⟩
            simp only [List.take_succ_cons, renderAllGo, Bool.false_eq_true, if_false]
            rw [hk]

/-- The running display-width total of the budgeted loop never exceeds
`max_width` plus twice a bound on the resolved padding widths: each widget is
admitted by a check that excludes its own padding, so the overshoot is at
most one widget's two padding copies. -/
theorem assembleLineGo_total_bound (cfg : Config) (r : Renderer) (theme : Theme)
    (maxW P : Nat) (ws : List (WidgetOutput × LineWidgetConfig))
    (hP : ∀ p ∈ ws, uwidth (p.2.padding.getD cfg.default_padding) ≤ P) :
    ∀ (needSep : Bool) (total : Nat), total ≤ maxW + 2 * P →
    (assembleLineGo cfg r theme maxW ws needSep total).2 ≤ maxW + 2 * P := by
  induction ws with
  | nil => intro needSep total ht; exact ht
  | cons hd rest ih =>
      obtain ⟨o, wc⟩ := hd
      have hPhd : uwidth (wc.padding.getD cfg.default_padding) ≤ P :=
        hP (o, wc) (List.mem_cons_self _ _)
      have hPrest : ∀ p ∈ rest, uwidth (p.2.padding.getD cfg.default_padding) ≤ P :=
        fun p hp => hP p (List.mem_cons_of_mem _ hp)
      intro needSep total ht
      simp only [assembleLineGo]
      cases needSep with
      | true =>
          by_cases h1 : total + uwidth cfg.default_separator + o.display_width > maxW
          · rw [if_pos ⟨rfl, h1⟩]; exact ht
          · rw [if_neg (by simpa using h1)]
            simp only [eq_self_iff_true, if_true]
            rw [if_neg (by omega)]
            exact ih hPrest (!wc.merge_next) _ (by omega)
      | false =>
          rw [if_neg (by simp)]
          simp only [Bool.false_eq_true, if_false]
          by_cases h2 : total + o.display_width > maxW
          · rw [if_pos h2]; exact ht
          · rw [if_neg h2]
            exact ih hPrest (!wc.merge_next) _ (by omega)

/-- C1 amended: the standard assembler drops widgets strictly in trailing
order (its output is the unlimited rendering of some prefix of the widget
list), and the sum of the emitted separator, widget and padding display
widths — the loop's running total — never exceeds `max_width + 2·P`, where
`P` bounds the resolved padding width of each slot (the budget check omits
the current widget's own padding, so the sum may overshoot `max_width` by at
most two padding copies, as the counterexample forces). -/
theorem C1_amended_prefix_and_bound (cfg : Config) (r : Renderer) (theme : Theme)
    (ws : List (WidgetOutput × LineWidgetConfig)) (maxW P : Nat)
    (hP : ∀ p ∈ ws, uwidth (p.2.padding.getD cfg.default_padding) ≤ P) :
    ∃ k, assembleLineGo cfg r theme maxW ws false 0 =
        renderAllGo cfg r theme (ws.take k) false 0 ∧
      (assembleLineGo cfg r theme maxW ws false 0).2 ≤ maxW + 2 * P := by
  obtain ⟨k, hk⟩ := assembleLineGo_prefix cfg r theme maxW ws false 0
  exact ⟨k, hk,
    assembleLineGo_total_bound cfg r theme maxW P ws hP false 0 (Nat.zero_le _)⟩

/-- Witness for C1 amended at a concrete input: two plain widgets under a
generous budget, padding bound 1. -/
theorem C1_amended_prefix_and_bound_witness :
    (∀ p ∈ [(outX, wcPlain), (outYZ, wcPlain)],
      uwidth (p.2.padding.getD cfgPad1.default_padding) ≤ 1) ∧
    (∃ k, assembleLineGo cfgPad1 rNone themeEmpty 20
          [(outX, wcPlain), (outYZ, wcPlain)] false 0 =
        renderAllGo cfgPad1 rNone themeEmpty
          ([(outX, wcPlain), (outYZ, wcPlain)].take k) false 0 ∧
      (assembleLineGo cfgPad1 rNone themeEmpty 20
          [(outX, wcPlain), (outYZ, wcPlain)] false 0).2 ≤ 20 + 2 * 1) :=
  ⟨by decide,
   C1_amended_prefix_and_bound cfgPad1 rNone themeEmpty
     [(outX, wcPlain), (outYZ, wcPlain)] 20 1 (by decide)⟩

/-! ### C2: flex fill arithmetic -/

/-- Display width distributes over concatenation. -/
theorem uwidth_append (a b : Str) : uwidth (a ++ b) = uwidth a + uwidth b := by
  simp [uwidth]

/-- Display width of a repeated string. -/
theorem uwidth_repeatStr (s : Str) (n : Nat) :
    uwidth (repeatStr s n) = n * uwidth s := by
  induction n with
  | zero => simp [repeatStr, uwidth]
  | succ k ih =>
      have : repeatStr s (k + 1) = s ++ repeatStr s k := by
        simp [repeatStr, List.replicate_succ]
      rw [this, uwidth_append, ih]
      ring

/-- Every flex slot of the widget list contributes its styled fill — the
fill string repeated `flexW` times — to the flex parts. -/
theorem flexPartsGo_mem_fill (cfg : Config) (r : Renderer) (theme : Theme)
    (flexW : Nat) (ws : List (WidgetOutput × LineWidgetConfig))
    (o : WidgetOutput) (wc : LineWidgetConfig)
    (hty : wc.widget_type = str "flex-separator") (hmem : (o, wc) ∈ ws) :
    ∀ needSep, apply_style cfg r theme (repeatStr o.text flexW) wc o
      ∈ flexPartsGo cfg r theme flexW ws needSep := by
  induction ws with
  | nil => cases hmem
  | cons hd rest ih =>
      intro needSep
      obtain ⟨o', wc'⟩ := hd
      rcases List.mem_cons.mp hmem with heq | hmem'
      · obtain ⟨ho, hwc⟩ := Prod.mk.injEq .. ▸ heq
        subst ho; subst hwc
        simp only [flexPartsGo]
        rw [if_pos hty]
        exact List.mem_cons_self _ _
      · simp only [flexPartsGo]
        by_cases hty' : wc'.widget_type = str "flex-separator"
        · rw [if_pos hty']
          exact List.mem_cons_of_mem _ (ih hmem' false)
        · rw [if_neg hty']
          refine List.mem_append_right _ ?_
          exact List.mem_cons_of_mem _ (ih hmem' (!wc'.merge_next))

/-- A line-slot config for the flex-separator widget type. -/
def lwcFlex : LineWidgetConfig :=
  { widget_type := str "flex-separator", color := Option.none
    background_color := Option.none, bold := Option.none
    padding := Option.none, merge_next := false }

/-- A flex-separator widget config whose `char` metadata is the two-column
string `ab`. -/
def wcfgFillAB : WidgetConfig :=
  { widget_type := str "flex-separator", id := str "f", color := Option.none
    background_color := Option.none, bold := Option.none, raw_value := false
    padding := Option.none, merge_next := false
    metadata := [(str "char", str "ab")] }

/-- A flex-separator widget config with no metadata: the fill string is the
default single space. -/
def wcfgFillDefault : WidgetConfig :=
  { widget_type := str "flex-separator", id := str "f", color := Option.none
    background_color := Option.none, bold := Option.none, raw_value := false
    padding := Option.none, merge_next := false, metadata := [] }

/-- A 14-column widget output with explicitly empty padding in its slot. -/
def out14 : WidgetOutput :=
  { text := str "cost 3.14 usd!", display_width := 14, priority := 0
    visible := true, color_hint := Option.none }

/-- A widget slot with explicitly empty padding. -/
def wcPadEmpty : LineWidgetConfig :=
  { widget_type := str "custom-text", color := Option.none
    background_color := Option.none, bold := Option.none
    padding := some [], merge_next := false }

/-- A line consisting of a fixed 14-column widget followed by a default flex
slot. -/
def wsFlexExample : List (WidgetOutput × LineWidgetConfig) :=
  [(out14, wcPadEmpty), (FlexSeparatorWidget.render wcfgFillDefault, lwcFlex)]

/-- C2 fails as stated: a flex-separator whose configured fill string `ab`
is two columns wide (as produced by `FlexSeparatorWidget::render` from the
`char` metadata) is repeated `fill_width` times, so the emitted fill text
occupies `2·fill_width` columns: with `max_width = 2` and `fixed_width = 0`
the fill should be 2 columns but the emitted line is `abab`, 4 columns. -/
theorem C2_counterexample_wide_fill_char :
    (FlexSeparatorWidget.render wcfgFillAB).text = str "ab" ∧
    flexFixedGo cfgPad1 [(FlexSeparatorWidget.render wcfgFillAB, lwcFlex)] false = 0 ∧
    assemble_line cfgPad1 rNone themeEmpty
      [(FlexSeparatorWidget.render wcfgFillAB, lwcFlex)] 2 = str "abab" ∧
    uwidth (stripAnsi (assemble_line cfgPad1 rNone themeEmpty
      [(FlexSeparatorWidget.render wcfgFillAB, lwcFlex)] 2)) = 4 ∧
    (4 : Nat) ≠ 2 - 0 := by
  decide

/-- C2 amended: for every widget list containing a flex slot, the fill width
is `max_width.saturating_sub(fixed_width)` (i.e. `max(0, max_width −
fixed_width)`), the flex slot is emitted as its fill string repeated exactly
that many times, and when the fill string is one display column wide (as the
default single space is) the emitted fill text's display width equals the
fill width exactly: it is 0 when `fixed_width ≥ max_width` and otherwise
brings the fixed width up to exactly `max_width`. -/
theorem C2_amended_flex_fill (cfg : Config) (r : Renderer) (theme : Theme)
    (ws : List (WidgetOutput × LineWidgetConfig)) (maxW : Nat)
    (o : WidgetOutput) (wc : LineWidgetConfig)
    (hty : wc.widget_type = str "flex-separator") (hmem : (o, wc) ∈ ws)
    (hone : uwidth o.text = 1) :
    apply_style cfg r theme (repeatStr o.text (maxW - flexFixedGo cfg ws false)) wc o
      ∈ flexPartsGo cfg r theme (maxW - flexFixedGo cfg ws false) ws false ∧
    (flexFixedGo cfg ws false ≤ maxW →
      uwidth (repeatStr o.text (maxW - flexFixedGo cfg ws false))
        + flexFixedGo cfg ws false = maxW) ∧
    (maxW ≤ flexFixedGo cfg ws false →
      uwidth (repeatStr o.text (maxW - flexFixedGo cfg ws false)) = 0) := by
  refine ⟨flexPartsGo_mem_fill cfg r theme _ ws o wc hty hmem false, ?_, ?_⟩ <;>
    · intro h
      rw [uwidth_repeatStr, hone]
      omega

/-- Witness for C2 amended: `max_width = 20` and `fixed_width = 14` give a
fill of exactly 6 columns. -/
theorem C2_amended_flex_fill_witness :
    flexFixedGo cfgPad1 wsFlexExample false = 14 ∧
    uwidth (repeatStr (FlexSeparatorWidget.render wcfgFillDefault).text
        (20 - flexFixedGo cfgPad1 wsFlexExample false))
      + flexFixedGo cfgPad1 wsFlexExample false = 20 :=
  ⟨by decide,
   (C2_amended_flex_fill cfgPad1 rNone themeEmpty wsFlexExample 20
      (FlexSeparatorWidget.render wcfgFillDefault) lwcFlex rfl (by decide)
      (by decide)).2.1 (by decide)⟩

/-! ### Escape-stripping lemmas -/

/-- A string without the ESC character. -/
def escFree (s : Str) : Prop := ∀ c ∈ s, c ≠ '\x1b'

/-- A string of non-alphabetic characters (the body of an SGR code). -/
def codeOk (s : Str) : Prop := ∀ c ∈ s, c.isAlpha = false

instance (s : Str) : Decidable (escFree s) := by
  unfold escFree
  infer_instance

instance (s : Str) : Decidable (codeOk s) := by
  unfold codeOk
  infer_instance

/-- Decimal digit characters are not alphabetic. -/
theorem isAlpha_digitChar (k : Nat) (hk : k < 10) :
    (Nat.digitChar k).isAlpha = false := by
  interval_cases k <;> decide

/-- Decimal representations consist of non-alphabetic characters. -/
theorem codeOk_natStrAux (fuel : Nat) : ∀ n, codeOk (natStrAux fuel n) := by
  induction fuel with
  | zero => intro n c hc; cases hc
  | succ f ih =>
      intro n c hc
      simp only [natStrAux] at hc
      by_cases h : n < 10
      · rw [if_pos h] at hc
        rcases List.mem_singleton.mp hc with rfl
        exact isAlpha_digitChar n h
      · rw [if_neg h] at hc
        rcases List.mem_append.mp hc with h1 | h2
        · exact ih _ c h1
        · rcases List.mem_singleton.mp h2 with rfl
          exact isAlpha_digitChar _ (Nat.mod_lt _ (by decide))

/-- Decimal representations consist of non-alphabetic characters. -/
theorem codeOk_natStr (n : Nat) : codeOk (natStr n) := codeOk_natStrAux _ n

/-- `codeOk` is closed under concatenation. -/
theorem codeOk_append {a b : Str} (ha : codeOk a) (hb : codeOk b) :
    codeOk (a ++ b) := by
  intro c hc
  rcases List.mem_append.mp hc with h | h
  · exact ha c h
  · exact hb c h

/-- `codeOk` is closed under branching. -/
theorem codeOk_ite (c : Prop) [Decidable c] (a b : Str) (ha : codeOk a)
    (hb : codeOk b) : codeOk (if c then a else b) := by
  split <;> assumption

/-- The 4-bit foreground codes are non-alphabetic. -/
theorem codeOk_namedFgCode (n : Str) : codeOk (namedFgCode n) := by
  rw [namedFgCode.eq_def]
  repeat (first | apply codeOk_ite _ _ _ (by decide) | decide)

/-- The 4-bit background codes are non-alphabetic. -/
theorem codeOk_namedBgCode (n : Str) : codeOk (namedBgCode n) := by
  rw [namedBgCode.eq_def]
  repeat (first | apply codeOk_ite _ _ _ (by decide) | decide)

/-- In escape mode, a non-alphabetic code followed by the terminator `m` is
consumed entirely, returning to normal mode. -/
theorem stripGo_true_code (code : Str) (hc : codeOk code) (rest : Str) :
    stripAnsiGo true (code ++ 'm' :: rest) = stripAnsiGo false rest := by
  induction code with
  | nil =>
      show stripAnsiGo true ('m' :: rest) = stripAnsiGo false rest
      simp only [stripAnsiGo]
      rw [if_pos (by decide)]
  | cons c cs ih =>
      have hcne : c.isAlpha = false := hc c (List.mem_cons_self _ _)
      have hcs : codeOk cs := fun x hx => hc x (List.mem_cons_of_mem _ hx)
      show stripAnsiGo true (c :: (cs ++ 'm' :: rest)) = stripAnsiGo false rest
      simp only [stripAnsiGo]
      rw [if_neg (by simp [hcne])]
      exact ih hcs

/-- A complete SGR escape strips to nothing. -/
theorem strip_sgr (code : Str) (hc : codeOk code) (rest : Str) :
    stripAnsiGo false (sgr code ++ rest) = stripAnsiGo false rest := by
  have h1 : sgr code ++ rest = '\x1b' :: '[' :: (code ++ 'm' :: rest) := by
    simp [sgr]
  rw [h1]
  show stripAnsiGo false ('\x1b' :: '[' :: (code ++ 'm' :: rest)) = _
  simp only [stripAnsiGo]
  rw [if_pos trivial, if_neg (by decide)]
  exact stripGo_true_code code hc rest

/-- ESC-free text passes through the stripper unchanged. -/
theorem strip_escFree (s : Str) (hs : escFree s) (rest : Str) :
    stripAnsiGo false (s ++ rest) = s ++ stripAnsiGo false rest := by
  induction s with
  | nil => simp
  | cons c cs ih =>
      have hc : c ≠ '\x1b' := hs c (List.mem_cons_self _ _)
      have hcs : escFree cs := fun x hx => hs x (List.mem_cons_of_mem _ hx)
      show stripAnsiGo false (c :: (cs ++ rest)) = _
      simp only [stripAnsiGo]
      rw [if_neg hc]
      rw [ih hcs]
      rfl

/-- `named_fg` escapes strip to nothing. -/
theorem strip_named_fg (c : ColorSpec) (rest : Str) :
    stripAnsiGo false (named_fg c ++ rest) = stripAnsiGo false rest := by
  cases c with
  | named n => exact strip_sgr _ (codeOk_namedFgCode n) rest
  | ansi256 n => exact strip_sgr _ (codeOk_append (by decide) (codeOk_natStr n)) rest
  | rgb a b d => exact strip_sgr _ (codeOk_append (by decide) (codeOk_natStr _)) rest

/-- `named_bg` escapes strip to nothing. -/
theorem strip_named_bg (c : ColorSpec) (rest : Str) :
    stripAnsiGo false (named_bg c ++ rest) = stripAnsiGo false rest := by
  cases c with
  | named n => exact strip_sgr _ (codeOk_namedBgCode n) rest
  | ansi256 n => exact strip_sgr _ (codeOk_append (by decide) (codeOk_natStr n)) rest
  | rgb a b d => exact strip_sgr _ (codeOk_append (by decide) (codeOk_natStr _)) rest

/-- `ansi256_fg` escapes strip to nothing. -/
theorem strip_ansi256_fg (c : ColorSpec) (rest : Str) :
    stripAnsiGo false (ansi256_fg c ++ rest) = stripAnsiGo false rest := by
  cases c with
  | named n => exact strip_named_fg (.named n) rest
  | ansi256 n => exact strip_sgr _ (codeOk_append (by decide) (codeOk_natStr n)) rest
  | rgb a b d => exact strip_sgr _ (codeOk_append (by decide) (codeOk_natStr _)) rest

/-- `ansi256_bg` escapes strip to nothing. -/
theorem strip_ansi256_bg (c : ColorSpec) (rest : Str) :
    stripAnsiGo false (ansi256_bg c ++ rest) = stripAnsiGo false rest := by
  cases c with
  | named n => exact strip_named_bg (.named n) rest
  | ansi256 n => exact strip_sgr _ (codeOk_append (by decide) (codeOk_natStr n)) rest
  | rgb a b d => exact strip_sgr _ (codeOk_append (by decide) (codeOk_natStr _)) rest

/-- `truecolor_fg` escapes strip to nothing. -/
theorem strip_truecolor_fg (c : ColorSpec) (rest : Str) :
    stripAnsiGo false (truecolor_fg c ++ rest) = stripAnsiGo false rest := by
  cases c with
  | named n => exact strip_ansi256_fg (.named n) rest
  | ansi256 n => exact strip_ansi256_fg (.ansi256 n) rest
  | rgb a b d =>
      refine strip_sgr _ ?_ rest
      repeat' apply codeOk_append
      all_goals first | apply codeOk_natStr | decide

/-- `truecolor_bg` escapes strip to nothing. -/
theorem strip_truecolor_bg (c : ColorSpec) (rest : Str) :
    stripAnsiGo false (truecolor_bg c ++ rest) = stripAnsiGo false rest := by
  cases c with
  | named n => exact strip_ansi256_bg (.named n) rest
  | ansi256 n => exact strip_ansi256_bg (.ansi256 n) rest
  | rgb a b d =>
      refine strip_sgr _ ?_ rest
      repeat' apply codeOk_append
      all_goals first | apply codeOk_natStr | decide

/-- Foreground escapes strip to nothing at every color level. -/
theorem strip_fg (r : Renderer) (c : ColorSpec) (rest : Str) :
    stripAnsiGo false (fg r c ++ rest) = stripAnsiGo false rest := by
  obtain ⟨lvl⟩ := r
  cases lvl with
  | none => rfl
  | basic16 => exact strip_named_fg c rest
  | color256 => exact strip_ansi256_fg c rest
  | trueColor => exact strip_truecolor_fg c rest

/-- Background escapes strip to nothing at every color level. -/
theorem strip_bg (r : Renderer) (c : ColorSpec) (rest : Str) :
    stripAnsiGo false (bg r c ++ rest) = stripAnsiGo false rest := by
  obtain ⟨lvl⟩ := r
  cases lvl with
  | none => rfl
  | basic16 => exact strip_named_bg c rest
  | color256 => exact strip_ansi256_bg c rest
  | trueColor => exact strip_truecolor_bg c rest

/-- The bold escape strips to nothing. -/
theorem strip_bold (r : Renderer) (rest : Str) :
    stripAnsiGo false (bold r ++ rest) = stripAnsiGo false rest := by
  unfold bold
  split
  · rfl
  · exact strip_sgr _ (by decide) rest

/-- The reset escape strips to nothing. -/
theorem strip_reset (r : Renderer) (rest : Str) :
    stripAnsiGo false (reset r ++ rest) = stripAnsiGo false rest := by
  unfold reset
  split
  · rfl
  · exact strip_sgr _ (by decide) rest

/-- A styled segment strips to exactly its ESC-free text. -/
theorem strip_apply_style (cfg : Config) (r : Renderer) (theme : Theme)
    (text : Str) (wc : LineWidgetConfig) (o : WidgetOutput) (rest : Str)
    (htext : escFree text) :
    stripAnsiGo false (apply_style cfg r theme text wc o ++ rest) =
      text ++ stripAnsiGo false rest := by
  have hB : ∀ xs, stripAnsiGo false ((match wc.background_color with
      | some b => bg r (parse_color b)
      | Option.none => []) ++ xs) = stripAnsiGo false xs := by
    intro xs
    cases wc.background_color with
    | none => rfl
    | some b => exact strip_bg r (parse_color b) xs
  have hF : ∀ xs, stripAnsiGo false ((match resolve_fg_color theme wc o with
      | some f => fg r (parse_color f)
      | Option.none => []) ++ xs) = stripAnsiGo false xs := by
    intro xs
    cases resolve_fg_color theme wc o with
    | none => rfl
    | some f => exact strip_fg r (parse_color f) xs
  have hD : ∀ xs, stripAnsiGo false ((if wc.bold.getD cfg.global_bold then bold r
      else []) ++ xs) = stripAnsiGo false xs := by
    intro xs
    split
    · exact strip_bold r xs
    · rfl
  calc stripAnsiGo false (apply_style cfg r theme text wc o ++ rest)
      = stripAnsiGo false ((match wc.background_color with
          | some b => bg r (parse_color b)
          | Option.none => []) ++ ((match resolve_fg_color theme wc o with
          | some f => fg r (parse_color f)
          | Option.none => []) ++ ((if wc.bold.getD cfg.global_bold then bold r
          else []) ++ (text ++ (reset r ++ rest))))) := by
        simp only [apply_style, List.append_assoc]
    _ = text ++ stripAnsiGo false (reset r ++ rest) := by
        rw [hB, hF, hD, strip_escFree text htext]
    _ = text ++ stripAnsiGo false rest := by rw [strip_reset]

/-! ### C10: the flex assembler never truncates -/

/-- Unfolding of one repetition. -/
theorem repeatStr_succ (s : Str) (k : Nat) :
    repeatStr s (k + 1) = s ++ repeatStr s k := by
  simp [repeatStr, List.replicate_succ]

/-- `escFree` is closed under repetition. -/
theorem escFree_repeatStr {s : Str} (hs : escFree s) (n : Nat) :
    escFree (repeatStr s n) := by
  induction n with
  | zero => intro c hc; simp [repeatStr] at hc
  | succ k ih =>
      intro c hc
      rw [repeatStr_succ] at hc
      rcases List.mem_append.mp hc with h | h
      · exact hs c h
      · exact ih c h

/-- The visible content of the flex parts: what the joined flex parts strip
to — separators, paddings, widget texts, and each flex slot's fill string
repeated `flexW` times, in order. -/
def flexContent (cfg : Config) (flexW : Nat) :
    List (WidgetOutput × LineWidgetConfig) → Bool → Str
  | [], _ => []
  | (o, wc) :: rest, needSep =>
      if wc.widget_type = str "flex-separator" then
        repeatStr o.text flexW ++ flexContent cfg flexW rest false
      else
        (if needSep then cfg.default_separator else [])
          ++ (wc.padding.getD cfg.default_padding) ++ o.text
          ++ (wc.padding.getD cfg.default_padding)
          ++ flexContent cfg flexW rest (!wc.merge_next)

/-- Stripping the joined flex parts yields exactly the visible content, when
the separator, every widget text and every resolved padding are ESC-free. -/
theorem strip_flexParts (cfg : Config) (r : Renderer) (theme : Theme)
    (flexW : Nat) (ws : List (WidgetOutput × LineWidgetConfig))
    (hsep : escFree cfg.default_separator)
    (hall : ∀ p ∈ ws, escFree p.1.text ∧
      escFree (p.2.padding.getD cfg.default_padding)) :
    ∀ (needSep : Bool) (rest : Str),
    stripAnsiGo false ((flexPartsGo cfg r theme flexW ws needSep).flatten ++ rest)
      = flexContent cfg flexW ws needSep ++ stripAnsiGo false rest := by
  induction ws with
  | nil => intro needSep rest; simp [flexPartsGo, flexContent]
  | cons hd tl ih =>
      obtain ⟨o, wc⟩ := hd
      have hhd : escFree o.text ∧ escFree (wc.padding.getD cfg.default_padding) :=
        hall (o, wc) (List.mem_cons_self _ _)
      have htl : ∀ p ∈ tl, escFree p.1.text ∧
          escFree (p.2.padding.getD cfg.default_padding) :=
        fun p hp => hall p (List.mem_cons_of_mem _ hp)
      intro needSep rest
      by_cases hty : wc.widget_type = str "flex-separator"
      · simp only [flexPartsGo, flexContent, if_pos hty, List.flatten_cons,
          List.append_assoc]
        rw [strip_apply_style cfg r theme _ wc o _ (escFree_repeatStr hhd.1 flexW)]
        rw [ih htl false rest]
      · cases needSep with
        | true =>
            simp only [flexPartsGo, flexContent, if_neg hty, eq_self_iff_true,
              if_true, List.flatten_cons, List.flatten_append, List.flatten_nil,
              List.singleton_append, List.cons_append, List.nil_append,
              List.append_nil, List.append_assoc]
            rw [strip_escFree _ hsep, strip_escFree _ hhd.2,
              strip_apply_style cfg r theme _ wc o _ hhd.1,
              strip_escFree _ hhd.2, ih htl (!wc.merge_next) rest]
        | false =>
            simp only [flexPartsGo, flexContent, if_neg hty, Bool.false_eq_true,
              if_false, List.flatten_cons, List.flatten_append, List.flatten_nil,
              List.singleton_append, List.cons_append, List.nil_append,
              List.append_nil, List.append_assoc]
            rw [strip_escFree _ hhd.2,
              strip_apply_style cfg r theme _ wc o _ hhd.1,
              strip_escFree _ hhd.2, ih htl (!wc.merge_next) rest]

/-- The display width of the visible flex content: the fixed width of the
first pass plus `flexW` columns-per-repetition for every flex slot, provided
the pre-measured widths of the non-flex widgets are accurate. -/
theorem uwidth_flexContent (cfg : Config) (flexW : Nat)
    (ws : List (WidgetOutput × LineWidgetConfig))
    (hw : ∀ p ∈ ws, ¬p.2.widget_type = str "flex-separator" →
      uwidth p.1.text = p.1.display_width) :
    ∀ needSep, uwidth (flexContent cfg flexW ws needSep)
      = flexFixedGo cfg ws needSep
        + ((ws.filter (fun p => p.2.widget_type == str "flex-separator")).map
            (fun p => flexW * uwidth p.1.text)).sum := by
  induction ws with
  | nil => intro needSep; simp [flexContent, flexFixedGo, uwidth]
  | cons hd tl ih =>
      obtain ⟨o, wc⟩ := hd
      have hwhd := hw (o, wc) (List.mem_cons_self _ _)
      have hwtl : ∀ p ∈ tl, ¬p.2.widget_type = str "flex-separator" →
          uwidth p.1.text = p.1.display_width :=
        fun p hp => hw p (List.mem_cons_of_mem _ hp)
      intro needSep
      by_cases hty : wc.widget_type = str "flex-separator"
      · simp only [flexContent, flexFixedGo, if_pos hty, uwidth_append,
          uwidth_repeatStr, List.filter_cons, hty, beq_self_eq_true, if_true,
          List.map_cons, List.sum_cons]
        rw [ih hwtl false]
        omega
      · have hne : ((o, wc).2.widget_type == str "flex-separator") = false := by
          simpa using hty
        have hwid : uwidth o.text = o.display_width := hwhd hty
        simp only [flexContent, flexFixedGo, if_neg hty, List.filter_cons, hne,
          if_false, uwidth_append]
        rw [ih hwtl (!wc.merge_next), hwid]
        cases needSep <;> simp [uwidth] <;> omega

/-- The flex parts contain at least one part per widget: no widget is ever
dropped on the flex path. -/
theorem flexPartsGo_length (cfg : Config) (r : Renderer) (theme : Theme)
    (flexW : Nat) (ws : List (WidgetOutput × LineWidgetConfig)) :
    ∀ needSep, ws.length ≤ (flexPartsGo cfg r theme flexW ws needSep).length := by
  induction ws with
  | nil => intro needSep; simp [flexPartsGo]
  | cons hd tl ih =>
      obtain ⟨o, wc⟩ := hd
      intro needSep
      by_cases hty : wc.widget_type = str "flex-separator"
      · simp only [flexPartsGo, if_pos hty, List.length_cons]
        have := ih false
        omega
      · simp only [flexPartsGo, if_neg hty, List.length_append,
          List.length_cons]
        have := ih (!wc.merge_next)
        cases needSep <;> simp <;> omega

/-- A five-column widget output. -/
def out5 : WidgetOutput :=
  { text := str "hello", display_width := 5, priority := 0, visible := true
    color_hint := Option.none }

/-- A line whose fixed width (5) exceeds the max width (3) used below. -/
def wsFlexOverflow : List (WidgetOutput × LineWidgetConfig) :=
  [(out5, wcPadEmpty), (FlexSeparatorWidget.render wcfgFillDefault, lwcFlex)]

/-- C10: the flex assembler applies no width truncation at all.  Under the
assumptions that the separator, the widget texts and the resolved paddings
contain no ESC byte and that the pre-measured widths of the non-flex widgets
are accurate, the emitted line's ANSI-stripped display width equals the full
fixed width plus `(max_width − fixed_width)` columns per repetition of each
flex slot's fill string; at least one part is emitted per widget (none is
dropped); and when the fixed width exceeds `max_width` the emitted line's
display width exceeds `max_width` (the fill is simply zero columns). -/
theorem C10_flex_no_truncation (cfg : Config) (r : Renderer) (theme : Theme)
    (ws : List (WidgetOutput × LineWidgetConfig)) (maxW : Nat)
    (hsep : escFree cfg.default_separator)
    (hall : ∀ p ∈ ws, escFree p.1.text ∧
      escFree (p.2.padding.getD cfg.default_padding))
    (hw : ∀ p ∈ ws, ¬p.2.widget_type = str "flex-separator" →
      uwidth p.1.text = p.1.display_width) :
    uwidth (stripAnsi (assemble_line_with_flex cfg r theme ws maxW))
      = flexFixedGo cfg ws false
        + ((ws.filter (fun p => p.2.widget_type == str "flex-separator")).map
            (fun p => (maxW - flexFixedGo cfg ws false) * uwidth p.1.text)).sum ∧
    ws.length ≤ (flexPartsGo cfg r theme
        (maxW - flexFixedGo cfg ws false) ws false).length ∧
    (maxW < flexFixedGo cfg ws false →
      maxW < uwidth (stripAnsi (assemble_line_with_flex cfg r theme ws maxW))) := by
  have hres : stripAnsiGo false (reset r) = [] := by
    have h := strip_reset r ([] : Str)
    simpa using h
  have hmain : uwidth (stripAnsi (assemble_line_with_flex cfg r theme ws maxW))
      = flexFixedGo cfg ws false
        + ((ws.filter (fun p => p.2.widget_type == str "flex-separator")).map
            (fun p => (maxW - flexFixedGo cfg ws false) * uwidth p.1.text)).sum := by
    unfold assemble_line_with_flex stripAnsi
    rw [strip_flexParts cfg r theme _ ws hsep hall false (reset r), hres,
      List.append_nil]
    exact uwidth_flexContent cfg _ ws hw false
  refine ⟨hmain, flexPartsGo_length cfg r theme _ ws false, fun hlt => ?_⟩
  rw [hmain]
  have h0 : maxW - flexFixedGo cfg ws false = 0 := by omega
  rw [h0]
  have hz : ((ws.filter (fun p => p.2.widget_type == str "flex-separator")).map
      (fun p => 0 * uwidth p.1.text)).sum = 0 := by simp
  omega

/-- Witness for C10 at a concrete input: a 5-column widget plus a flex slot
under `max_width = 3`; the fixed width 5 exceeds the budget, yet the widget
is emitted and the stripped width of the line is the full fixed width. -/
theorem C10_flex_no_truncation_witness :
    uwidth (stripAnsi (assemble_line_with_flex cfgPad1 rNone themeEmpty
        wsFlexOverflow 3))
      = flexFixedGo cfgPad1 wsFlexOverflow false
        + ((wsFlexOverflow.filter
            (fun p => p.2.widget_type == str "flex-separator")).map
            (fun p => (3 - flexFixedGo cfgPad1 wsFlexOverflow false)
              * uwidth p.1.text)).sum ∧
    wsFlexOverflow.length ≤ (flexPartsGo cfgPad1 rNone themeEmpty
        (3 - flexFixedGo cfgPad1 wsFlexOverflow false) wsFlexOverflow false).length ∧
    (3 < flexFixedGo cfgPad1 wsFlexOverflow false →
      3 < uwidth (stripAnsi (assemble_line_with_flex cfgPad1 rNone themeEmpty
        wsFlexOverflow 3))) :=
  C10_flex_no_truncation cfgPad1 rNone themeEmpty wsFlexOverflow 3
    (by decide) (by decide) (by decide)

end ClaudeStatus
